import Mathlib

/-!
# Logos module builder: lifecycle gates of the example modules

A shallow embedding of the C++ plugins of the repository:

* `WakuModulePlugin` (`examples/waku-module-migrated/src/waku_module_plugin.cpp`),
  a wrapper around the C library declared in `lib/libwaku.h`;
* `ExternalLibPlugin` (`templates/external-lib-module/external_lib_plugin.cpp`);
* `MinimalPlugin` (`templates/minimal-module/src/minimal_plugin.cpp`).

Modelling conventions.

* A `void*` is the address it holds, a `Nat`; `nullptr` is `0`.
* A C `int` that is only passed through (status codes) is an `Int`.
* `QString` and the `const char*` it is converted to and from (`toUtf8`,
  `fromUtf8`) are both the text they encode, a `String`.
* A Qt signal emission `emit eventResponse(name, args)` appends a `Signal` to the
  trace `signals` of the world; a call into the C library appends a `LibCall` to
  the trace `libCalls`.
* The C library is a collaborator whose code is not part of the repository: it is
  a parameter (`LibWaku`) giving, for every call and every history of earlier
  calls, the value returned and the callbacks the library runs before returning.
-/

namespace Logos

/-- A `QString`. -/
abbrev QString := String

/-- The `QVariant` values that the plugins put into a `QVariantList`. -/
inductive QVariant where
  | int (i : Int)
  | str (s : QString)
deriving DecidableEq, Repr

/-- One emission of the Qt signal `eventResponse(eventName, args)`. -/
structure Signal where
  eventName : QString
  args : List QVariant
deriving DecidableEq, Repr

/-- One call `getClient(client)->onEventResponse(eventName, args)` on the `LogosAPI`. -/
structure ApiCall where
  client : QString
  eventName : QString
  args : List QVariant
deriving DecidableEq, Repr

/-! ## `QString::arg`

Qt replaces the place markers `%N` (an optional `L`, then one or two decimal digits) of
a format string: with `k` arguments, the `k` lowest marker numbers that occur are
replaced, in one pass, by the arguments in order; the other markers stay as they are,
and the text put in is not scanned again. -/

/-- A piece of a format string: one character, or a place marker with its number and
the text it was written as. -/
inductive ArgTok where
  | lit (c : Char)
  | marker (n : Nat) (raw : List Char)
deriving DecidableEq, Repr

/-- The value of a decimal digit. -/
def digitVal (c : Char) : Nat := c.toNat - '0'.toNat

/-- Read a marker number (one or two digits) at the head of the text after `%` or `%L`:
the number, the digits read, and the rest. -/
def scanNumber : List Char → Option (Nat × List Char × List Char)
  | [] => none
  | d1 :: r1 =>
    if d1.isDigit then
      match r1 with
      | [] => some (digitVal d1, [d1], [])
      | d2 :: r2 =>
        if d2.isDigit then some (10 * digitVal d1 + digitVal d2, [d1, d2], r2)
        else some (digitVal d1, [d1], d2 :: r2)
    else none

/-- Split a format string into characters and place markers; `fuel` bounds the number
of pieces and is the length of the text where it is used. -/
def scanFormat : Nat → List Char → List ArgTok
  | 0, _ => []
  | _, [] => []
  | fuel + 1, c :: rest =>
    if c = '%' then
      match rest with
      | 'L' :: rest1 =>
        match scanNumber rest1 with
        | some (n, ds, rest2) => .marker n ('%' :: 'L' :: ds) :: scanFormat fuel rest2
        | none => .lit c :: scanFormat fuel rest
      | _ =>
        match scanNumber rest with
        | some (n, ds, rest2) => .marker n ('%' :: ds) :: scanFormat fuel rest2
        | none => .lit c :: scanFormat fuel rest
    else .lit c :: scanFormat fuel rest

/-- Insert a number into an ascending list without repetition. -/
def insertMarker (n : Nat) : List Nat → List Nat
  | [] => [n]
  | m :: ms => if n < m then n :: m :: ms else if n = m then m :: ms else m :: insertMarker n ms

/-- The marker numbers of a format, ascending and without repetition. -/
def markerNumbers : List ArgTok → List Nat
  | [] => []
  | .lit _ :: ts => markerNumbers ts
  | .marker n _ :: ts => insertMarker n (markerNumbers ts)

/-- The position of a number in a list. -/
def indexOfMarker (n : Nat) : List Nat → Option Nat
  | [] => none
  | m :: ms => if n = m then some 0 else (indexOfMarker n ms).map (· + 1)

/-- Write the pieces out, the `i`-th lowest marker number replaced by the `i`-th
argument when there is one. -/
def renderFormat (nums : List Nat) (as : List QString) : List ArgTok → List Char
  | [] => []
  | .lit c :: ts => c :: renderFormat nums as ts
  | .marker n raw :: ts =>
    match (indexOfMarker n nums).bind (fun i => as.get? i) with
    | some a => a.data ++ renderFormat nums as ts
    | none => raw ++ renderFormat nums as ts

/-- The call `fmt.arg(a1, ..., ak)` of Qt. -/
def QString.arg (fmt : QString) (as : List QString) : QString :=
  let toks := scanFormat fmt.data.length fmt.data
  String.mk (renderFormat (markerNumbers toks) as toks)

/-! ## `WakuModulePlugin` -/

/-- The three static callback functions of `WakuModulePlugin`, as function pointers. -/
inductive Callback where
  | init_callback
  | start_callback
  | event_callback
deriving DecidableEq, Repr

/-- One call into `libwaku`, with its arguments (`user_data` is always `this`). -/
inductive LibCall where
  | waku_new (config_json : String) (callback : Callback)
  | waku_start (ctx : Nat) (callback : Callback)
  | waku_set_event_callback (ctx : Nat) (callback : Callback)
  | waku_relay_subscribe (ctx : Nat) (pubsub_topic : String) (callback : Callback)
  | waku_relay_publish (ctx : Nat) (pubsub_topic message content_topic : String)
      (timeout_ms : Int) (callback : Callback)
  | waku_filter_subscribe (ctx : Nat) (pubsub_topic content_topics_json : String)
      (callback : Callback)
  | waku_store_query (ctx : Nat) (query_json : String) (callback : Callback)
deriving DecidableEq, Repr

/-- One invocation `callback(ret_code, msg, user_data)` made by the library. -/
structure Fired where
  callback : Callback
  ret_code : Int
  msg : String
deriving DecidableEq, Repr

/-- The functions of `lib/libwaku.h` that the plugin calls. Each takes the history of
the earlier calls, then the arguments of the C function (without `user_data`), and
gives the value returned together with the callbacks run before it returns. -/
structure LibWaku where
  waku_new : List LibCall → String → Callback → Nat × List Fired
  waku_start : List LibCall → Nat → Callback → Int × List Fired
  waku_set_event_callback : List LibCall → Nat → Callback → List Fired
  waku_relay_subscribe : List LibCall → Nat → String → Callback → Int × List Fired
  waku_relay_publish :
    List LibCall → Nat → String → String → String → Int → Callback → Int × List Fired
  waku_filter_subscribe :
    List LibCall → Nat → String → String → Callback → Int × List Fired
  waku_store_query : List LibCall → Nat → String → Callback → Int × List Fired

/-- The data members of `WakuModulePlugin` (`waku_module_plugin.h`, lines 57-58). -/
structure WakuModulePlugin where
  m_logosAPI : Nat := 0
  wakuCtx : Nat := 0
deriving DecidableEq, Repr

/-- A plugin object together with everything it has done that can be observed. -/
structure WakuWorld where
  plugin : WakuModulePlugin := {}
  libCalls : List LibCall := []
  signals : List Signal := []
  apiCalls : List ApiCall := []
deriving DecidableEq, Repr

namespace WakuModulePlugin

/-- The function `WakuModulePlugin::init_callback`. -/
def init_callback (ret_code : Int) (msg : String) (w : WakuWorld) : WakuWorld :=
  { w with signals := w.signals ++ [⟨"waku_init", [.int ret_code, .str msg]⟩] }

/-- The function `WakuModulePlugin::start_callback`. -/
def start_callback (ret_code : Int) (msg : String) (w : WakuWorld) : WakuWorld :=
  { w with signals := w.signals ++ [⟨"waku_started", [.int ret_code, .str msg]⟩] }

/-- The function `WakuModulePlugin::event_callback`. -/
def event_callback (ret_code : Int) (msg : String) (w : WakuWorld) : WakuWorld :=
  let w1 : WakuWorld :=
    if w.plugin.m_logosAPI ≠ 0 then
      { w with apiCalls :=
          w.apiCalls ++ [⟨"core_manager", "waku_event", [.int ret_code, .str msg]⟩] }
    else w
  { w1 with signals := w1.signals ++ [⟨"waku_event", [.int ret_code, .str msg]⟩] }

/-- The library invokes one of the callbacks it was handed. -/
def fire (f : Fired) (w : WakuWorld) : WakuWorld :=
  match f.callback with
  | .init_callback => init_callback f.ret_code f.msg w
  | .start_callback => start_callback f.ret_code f.msg w
  | .event_callback => event_callback f.ret_code f.msg w

/-- The callbacks the library runs during one call, in order. -/
def fireAll (fs : List Fired) (w : WakuWorld) : WakuWorld :=
  fs.foldl (fun acc f => fire f acc) w

/-- Record a call into the library. -/
def logCall (c : LibCall) (w : WakuWorld) : WakuWorld :=
  { w with libCalls := w.libCalls ++ [c] }

/-- The method `WakuModulePlugin::initLogos`. -/
def initLogos (api : Nat) (w : WakuWorld) : WakuWorld :=
  { w with
    plugin := { w.plugin with m_logosAPI := api }
    signals := w.signals ++ [⟨"initialized", [.str "waku_module", .str "1.0.0"]⟩] }

/-- The method `WakuModulePlugin::initWaku`. -/
def initWaku (lib : LibWaku) (configJson : QString) (w : WakuWorld) : Int × WakuWorld :=
  let r := lib.waku_new w.libCalls configJson .init_callback
  let w1 := fireAll r.2 (logCall (.waku_new configJson .init_callback) w)
  let w2 : WakuWorld := { w1 with plugin := { w1.plugin with wakuCtx := r.1 } }
  if w2.plugin.wakuCtx = 0 then (-1, w2) else (0, w2)

/-- The method `WakuModulePlugin::startWaku`. -/
def startWaku (lib : LibWaku) (w : WakuWorld) : Int × WakuWorld :=
  if w.plugin.wakuCtx = 0 then (-1, w)
  else
    let r := lib.waku_start w.libCalls w.plugin.wakuCtx .start_callback
    (r.1, fireAll r.2 (logCall (.waku_start w.plugin.wakuCtx .start_callback) w))

/-- The method `WakuModulePlugin::setEventCallback`. -/
def setEventCallback (lib : LibWaku) (w : WakuWorld) : WakuWorld :=
  if w.plugin.wakuCtx = 0 then w
  else
    let r := lib.waku_set_event_callback w.libCalls w.plugin.wakuCtx .event_callback
    fireAll r (logCall (.waku_set_event_callback w.plugin.wakuCtx .event_callback) w)

/-- The method `WakuModulePlugin::relaySubscribe`. -/
def relaySubscribe (lib : LibWaku) (pubsubTopic : QString) (w : WakuWorld) :
    Int × WakuWorld :=
  if w.plugin.wakuCtx = 0 then (-1, w)
  else
    let r := lib.waku_relay_subscribe w.libCalls w.plugin.wakuCtx pubsubTopic .event_callback
    (r.1, fireAll r.2
      (logCall (.waku_relay_subscribe w.plugin.wakuCtx pubsubTopic .event_callback) w))

/-- The method `WakuModulePlugin::relayPublish`. -/
def relayPublish (lib : LibWaku) (pubsubTopic message contentTopic : QString)
    (w : WakuWorld) : Int × WakuWorld :=
  if w.plugin.wakuCtx = 0 then (-1, w)
  else
    let r := lib.waku_relay_publish w.libCalls w.plugin.wakuCtx pubsubTopic message
      contentTopic 0 .event_callback
    (r.1, fireAll r.2
      (logCall (.waku_relay_publish w.plugin.wakuCtx pubsubTopic message contentTopic 0
        .event_callback) w))

/-- The text `contentTopics` built in `filterSubscribe` (line 132). -/
def contentTopicsJson (contentTopic : QString) : QString :=
  "[\"" ++ contentTopic ++ "\"]"

/-- The method `WakuModulePlugin::filterSubscribe`. -/
def filterSubscribe (lib : LibWaku) (pubsubTopic contentTopic : QString) (w : WakuWorld) :
    Int × WakuWorld :=
  if w.plugin.wakuCtx = 0 then (-1, w)
  else
    let contentTopics := contentTopicsJson contentTopic
    let r := lib.waku_filter_subscribe w.libCalls w.plugin.wakuCtx pubsubTopic contentTopics
      .event_callback
    (r.1, fireAll r.2
      (logCall (.waku_filter_subscribe w.plugin.wakuCtx pubsubTopic contentTopics
        .event_callback) w))

/-- The raw string literal of `storeQuery` (lines 150-155). -/
def storeQueryFormat : QString :=
  "\x7b\n        \"pubsubTopic\": \"%1\",\n        \"contentTopics\": [\"%2\"],\n        \"startTime\": %3,\n        \"endTime\": %4\n    \x7d"

/-- The text `queryJson` built in `storeQuery`. -/
def storeQueryJson (pubsubTopic contentTopic startTime endTime : QString) : QString :=
  QString.arg storeQueryFormat [pubsubTopic, contentTopic, startTime, endTime]

/-- The method `WakuModulePlugin::storeQuery`. -/
def storeQuery (lib : LibWaku) (pubsubTopic contentTopic startTime endTime : QString)
    (w : WakuWorld) : Int × WakuWorld :=
  if w.plugin.wakuCtx = 0 then (-1, w)
  else
    let queryJson := storeQueryJson pubsubTopic contentTopic startTime endTime
    let r := lib.waku_store_query w.libCalls w.plugin.wakuCtx queryJson .event_callback
    (r.1, fireAll r.2
      (logCall (.waku_store_query w.plugin.wakuCtx queryJson .event_callback) w))

end WakuModulePlugin

/-! ### Sequences of calls on a `WakuModulePlugin` -/

/-- A call of a public method of `WakuModulePlugin`, or an invocation of one of its
callbacks by the library after the call that registered it has returned. -/
inductive WakuOp where
  | initLogos (api : Nat)
  | initWaku (configJson : QString)
  | startWaku
  | setEventCallback
  | relaySubscribe (pubsubTopic : QString)
  | relayPublish (pubsubTopic message contentTopic : QString)
  | filterSubscribe (pubsubTopic contentTopic : QString)
  | storeQuery (pubsubTopic contentTopic startTime endTime : QString)
  | callback (f : Fired)
deriving DecidableEq, Repr

namespace WakuModulePlugin

/-- The world after one call. -/
def step (lib : LibWaku) (w : WakuWorld) : WakuOp → WakuWorld
  | .initLogos api => initLogos api w
  | .initWaku configJson => (initWaku lib configJson w).2
  | .startWaku => (startWaku lib w).2
  | .setEventCallback => setEventCallback lib w
  | .relaySubscribe t => (relaySubscribe lib t w).2
  | .relayPublish t m c => (relayPublish lib t m c w).2
  | .filterSubscribe t c => (filterSubscribe lib t c w).2
  | .storeQuery t c a b => (storeQuery lib t c a b w).2
  | .callback f => fire f w

/-- The world after a sequence of calls on a freshly constructed plugin. -/
def run (lib : LibWaku) (ops : List WakuOp) : WakuWorld :=
  ops.foldl (step lib) {}

end WakuModulePlugin

/-- The return code `RET_OK` of `libwaku.h`. -/
def RET_OK : Int := 0

/-- The return code `RET_ERR` of `libwaku.h`. -/
def RET_ERR : Int := 1

/-- A library that accepts everything: `waku_new` gives the context at address `1`,
every other function returns `RET_OK`, and no callback runs before a call returns. -/
def acceptingLib : LibWaku where
  waku_new := fun _ _ _ => (1, [])
  waku_start := fun _ _ _ => (RET_OK, [])
  waku_set_event_callback := fun _ _ _ => []
  waku_relay_subscribe := fun _ _ _ _ => (RET_OK, [])
  waku_relay_publish := fun _ _ _ _ _ _ _ => (RET_OK, [])
  waku_filter_subscribe := fun _ _ _ _ _ => (RET_OK, [])
  waku_store_query := fun _ _ _ _ => (RET_OK, [])

/-- A library that refuses to create a context and reports it through the callback. -/
def refusingLib : LibWaku where
  waku_new := fun _ _ cb => (0, [⟨cb, RET_ERR, "bad config"⟩])
  waku_start := fun _ _ _ => (RET_ERR, [])
  waku_set_event_callback := fun _ _ _ => []
  waku_relay_subscribe := fun _ _ _ _ => (RET_ERR, [])
  waku_relay_publish := fun _ _ _ _ _ _ _ => (RET_ERR, [])
  waku_filter_subscribe := fun _ _ _ _ _ => (RET_ERR, [])
  waku_store_query := fun _ _ _ _ => (RET_ERR, [])

/-! ## JSON text: an array holding one string

What `libwaku.h` asks of `content_topics_json`, read off the JSON grammar (RFC 8259):
white space, `[`, white space, a string, white space, `]`, white space. -/

/-- JSON white space. -/
def isJsonWs (c : Char) : Bool := c = ' ' || c = '\t' || c = '\n' || c = '\r'

/-- Drop leading white space. -/
def skipWs : List Char → List Char
  | [] => []
  | c :: cs => if isJsonWs c then skipWs cs else c :: cs

/-- The value of a hexadecimal digit. -/
def hexVal (c : Char) : Option Nat :=
  if '0' ≤ c ∧ c ≤ '9' then some (c.toNat - '0'.toNat)
  else if 'a' ≤ c ∧ c ≤ 'f' then some (c.toNat - 'a'.toNat + 10)
  else if 'A' ≤ c ∧ c ≤ 'F' then some (c.toNat - 'A'.toNat + 10)
  else none

/-- Four hexadecimal digits at the head of a text: their value and the rest. -/
def hex4 : List Char → Option (Nat × List Char)
  | a :: b :: c :: d :: rest =>
    match hexVal a, hexVal b, hexVal c, hexVal d with
    | some x, some y, some z, some u => some (((x * 16 + y) * 16 + z) * 16 + u, rest)
    | _, _, _, _ => none
  | _ => none

/-- The character an escape sequence stands for, read after its backslash, and the
rest of the text. A `\u` escape gives its code point, two of them that form a
surrogate pair give the code point of the pair. -/
def jsonEscape : List Char → Option (Char × List Char)
  | [] => none
  | e :: rest =>
    if e = '"' then some ('"', rest)
    else if e = '\\' then some ('\\', rest)
    else if e = '/' then some ('/', rest)
    else if e = 'b' then some (Char.ofNat 8, rest)
    else if e = 'f' then some (Char.ofNat 12, rest)
    else if e = 'n' then some ('\n', rest)
    else if e = 'r' then some ('\r', rest)
    else if e = 't' then some ('\t', rest)
    else if e = 'u' then
      match hex4 rest with
      | none => none
      | some (hi, rest1) =>
        if 0xD800 ≤ hi ∧ hi < 0xDC00 then
          match rest1 with
          | '\\' :: 'u' :: rest2 =>
            match hex4 rest2 with
            | some (lo, rest3) =>
              if 0xDC00 ≤ lo ∧ lo < 0xE000 then
                some (Char.ofNat (0x10000 + (hi - 0xD800) * 0x400 + (lo - 0xDC00)), rest3)
              else some (Char.ofNat hi, rest1)
            | none => some (Char.ofNat hi, rest1)
          | _ => some (Char.ofNat hi, rest1)
        else some (Char.ofNat hi, rest1)
    else none

/-- Read a JSON string after its opening quote: the text it denotes and what follows
the closing quote; `none` when the string is not well formed. `fuel` bounds the number
of characters read and is the length of the text where it is used. -/
def jsonStringBody : Nat → List Char → Option (List Char × List Char)
  | 0, _ => none
  | _, [] => none
  | fuel + 1, c :: rest =>
    if c = '"' then some ([], rest)
    else if c = '\\' then
      match jsonEscape rest with
      | some (ch, rest1) => (jsonStringBody fuel rest1).map (fun p => (ch :: p.1, p.2))
      | none => none
    else if c.toNat < 0x20 then none
    else (jsonStringBody fuel rest).map (fun p => (c :: p.1, p.2))

/-- The string held by a JSON text that is an array of exactly one element, a string;
`none` for every other text. -/
def jsonSingleStringArray (text : String) : Option String :=
  match skipWs text.data with
  | '[' :: r1 =>
    match skipWs r1 with
    | '"' :: r2 =>
      match jsonStringBody r2.length r2 with
      | some (v, r3) =>
        match skipWs r3 with
        | ']' :: r4 => if skipWs r4 = [] then some (String.mk v) else none
        | _ => none
      | none => none
    | _ => none
  | _ => none

/-! ## `ExternalLibPlugin` -/

/-- The data members of `ExternalLibPlugin` (`external_lib_plugin.h`, lines 43-45). -/
structure ExternalLibPlugin where
  m_logosAPI : Nat := 0
  m_libHandle : Nat := 0
  m_initialized : Bool := false
deriving DecidableEq, Repr

/-- A plugin object together with the signals it has emitted. -/
structure ExternalLibWorld where
  plugin : ExternalLibPlugin := {}
  signals : List Signal := []
deriving DecidableEq, Repr

namespace ExternalLibPlugin

/-- The method `ExternalLibPlugin::initLogos`. -/
def initLogos (api : Nat) (w : ExternalLibWorld) : ExternalLibWorld :=
  { plugin := { w.plugin with m_logosAPI := api }
    signals := w.signals ++ [⟨"initialized", [.str "external_lib", .str "1.0.0"]⟩] }

/-- The method `ExternalLibPlugin::initLibrary`. -/
def initLibrary (config : QString) (w : ExternalLibWorld) : Bool × ExternalLibWorld :=
  if w.plugin.m_initialized then (true, w)
  else
    (true,
      { plugin := { w.plugin with m_libHandle := 1, m_initialized := true }
        signals := w.signals ++ [⟨"library_initialized", [.str config]⟩] })

/-- The method `ExternalLibPlugin::processData`. -/
def processData (input : QString) (w : ExternalLibWorld) : QString × ExternalLibWorld :=
  if !w.plugin.m_initialized then ("", w)
  else
    let output := QString.arg "Processed: %1" [input]
    (output, { w with signals := w.signals ++ [⟨"data_processed", [.str input, .str output]⟩] })

/-- The method `ExternalLibPlugin::cleanup`. -/
def cleanup (w : ExternalLibWorld) : ExternalLibWorld :=
  if !w.plugin.m_initialized then w
  else
    { plugin := { w.plugin with m_libHandle := 0, m_initialized := false }
      signals := w.signals ++ [⟨"library_cleanup", []⟩] }

end ExternalLibPlugin

/-- A call of a public method of `ExternalLibPlugin`. -/
inductive ExternalLibOp where
  | initLogos (api : Nat)
  | initLibrary (config : QString)
  | processData (input : QString)
  | cleanup
deriving DecidableEq, Repr

namespace ExternalLibPlugin

/-- The world after one call. -/
def step (w : ExternalLibWorld) : ExternalLibOp → ExternalLibWorld
  | .initLogos api => initLogos api w
  | .initLibrary config => (initLibrary config w).2
  | .processData input => (processData input w).2
  | .cleanup => cleanup w

/-- The world after a sequence of calls on a freshly constructed plugin. -/
def run (ops : List ExternalLibOp) : ExternalLibWorld :=
  ops.foldl step {}

end ExternalLibPlugin

/-! ## `MinimalPlugin` -/

/-- The data members of `MinimalPlugin`: `m_logosAPI` and `m_initialized` of
`minimal_plugin.h` (lines 40-41), and the two pointers `logos` and `logosAPI` that
`initLogos` uses, whose declarations are in headers outside the repository. -/
structure MinimalPlugin where
  logos : Nat := 0
  logosAPI : Nat := 0
  m_logosAPI : Nat := 0
  m_initialized : Bool := false
deriving DecidableEq, Repr

/-- A plugin object together with the signals it has emitted and the objects it has
deleted. -/
structure MinimalWorld where
  plugin : MinimalPlugin := {}
  signals : List Signal := []
  deleted : List Nat := []
deriving DecidableEq, Repr

namespace MinimalPlugin

/-- The method `MinimalPlugin::initLogos`; `newLogos` is the address that
`new LogosModules(logosAPI)` gives when it is reached. -/
def initLogos (logosAPIInstance newLogos : Nat) (w : MinimalWorld) : MinimalWorld :=
  let w1 : MinimalWorld :=
    if w.plugin.logos ≠ 0 then
      { w with plugin := { w.plugin with logos := 0 }, deleted := w.deleted ++ [w.plugin.logos] }
    else w
  let w2 : MinimalWorld :=
    if w1.plugin.logosAPI ≠ 0 then
      { w1 with
        plugin := { w1.plugin with logosAPI := 0 }
        deleted := w1.deleted ++ [w1.plugin.logosAPI] }
    else w1
  let w3 : MinimalWorld := { w2 with plugin := { w2.plugin with logosAPI := logosAPIInstance } }
  if w3.plugin.logosAPI ≠ 0 then { w3 with plugin := { w3.plugin with logos := newLogos } }
  else w3

/-- The method `MinimalPlugin::greet`. -/
def greet (name : QString) (w : MinimalWorld) : QString × MinimalWorld :=
  let greeting := QString.arg "Hello, %1! Greetings from the Minimal module." [name]
  (greeting, { w with signals := w.signals ++ [⟨"greeted", [.str name, .str greeting]⟩] })

/-- The method `MinimalPlugin::getStatus`. -/
def getStatus (w : MinimalWorld) : QString × MinimalWorld :=
  if w.plugin.m_initialized then ("Minimal module is running and initialized.", w)
  else ("Minimal module is loaded but not yet initialized.", w)

end MinimalPlugin

/-- A call of a public method of `MinimalPlugin`. -/
inductive MinimalOp where
  | initLogos (logosAPIInstance newLogos : Nat)
  | greet (name : QString)
  | getStatus
deriving DecidableEq, Repr

namespace MinimalPlugin

/-- The world after one call. -/
def step (w : MinimalWorld) : MinimalOp → MinimalWorld
  | .initLogos api newLogos => initLogos api newLogos w
  | .greet name => (greet name w).2
  | .getStatus => (getStatus w).2

/-- The world after a sequence of calls on a freshly constructed plugin. -/
def run (ops : List MinimalOp) : MinimalWorld :=
  ops.foldl step {}

end MinimalPlugin

/-! ## Predicates used in the statements -/

/-- The handle is non-null exactly when the plugin is initialised. -/
def handleMatchesFlag (w : ExternalLibWorld) : Prop :=
  w.plugin.m_libHandle ≠ 0 ↔ w.plugin.m_initialized = true

instance (w : ExternalLibWorld) : Decidable (handleMatchesFlag w) :=
  inferInstanceAs (Decidable (w.plugin.m_libHandle ≠ 0 ↔ w.plugin.m_initialized = true))

/-- A character that a JSON string may hold as it is. -/
def plainJsonChar (c : Char) : Prop := c ≠ '"' ∧ c ≠ '\\' ∧ 0x20 ≤ c.toNat

instance (c : Char) : Decidable (plainJsonChar c) :=
  inferInstanceAs (Decidable (c ≠ '"' ∧ c ≠ '\\' ∧ 0x20 ≤ c.toNat))

/-! ## Lemmas on the callbacks -/

namespace WakuModulePlugin

theorem fire_plugin (f : Fired) (w : WakuWorld) : (fire f w).plugin = w.plugin := by
  cases f with
  | mk cb rc msg =>
    cases cb <;> simp only [fire, init_callback, start_callback, event_callback]
    split <;> rfl

theorem fire_libCalls (f : Fired) (w : WakuWorld) : (fire f w).libCalls = w.libCalls := by
  cases f with
  | mk cb rc msg =>
    cases cb <;> simp only [fire, init_callback, start_callback, event_callback]
    split <;> rfl

theorem fireAll_plugin (fs : List Fired) (w : WakuWorld) :
    (fireAll fs w).plugin = w.plugin := by
  induction fs generalizing w with
  | nil => rfl
  | cons f fs ih =>
    show (fireAll fs (fire f w)).plugin = w.plugin
    rw [ih, fire_plugin]

theorem fireAll_libCalls (fs : List Fired) (w : WakuWorld) :
    (fireAll fs w).libCalls = w.libCalls := by
  induction fs generalizing w with
  | nil => rfl
  | cons f fs ih =>
    show (fireAll fs (fire f w)).libCalls = w.libCalls
    rw [ih, fire_libCalls]

end WakuModulePlugin

/-! ## `WakuModulePlugin`: the gate on the context handle -/

section Waku
open WakuModulePlugin

/-- C1, as stated, fails: after a successful `initWaku` and without any `startWaku`,
`relaySubscribe` is not rejected. It calls `waku_relay_subscribe` and returns the
library's `RET_OK`. -/
theorem relaySubscribe_before_start_reaches_library :
    WakuOp.startWaku ∉ [WakuOp.initWaku "cfg"] ∧
    (relaySubscribe acceptingLib "t" (run acceptingLib [.initWaku "cfg"])).1 = RET_OK ∧
    (relaySubscribe acceptingLib "t" (run acceptingLib [.initWaku "cfg"])).2.libCalls =
      (run acceptingLib [.initWaku "cfg"]).libCalls ++
        [.waku_relay_subscribe 1 "t" .event_callback] ∧
    ¬ ((relaySubscribe acceptingLib "t" (run acceptingLib [.initWaku "cfg"])).1 ≠ RET_OK ∧
       (relaySubscribe acceptingLib "t" (run acceptingLib [.initWaku "cfg"])).2.libCalls =
         (run acceptingLib [.initWaku "cfg"]).libCalls) := by
  decide

/-- C1, amended: the gate of the four protocol operations is the context handle, not a
record of `startWaku`. With a null handle each of `relaySubscribe`, `relayPublish`,
`filterSubscribe` and `storeQuery` returns `-1` and leaves the world as it was (no call
into the library, no event). With a non-null handle, whether or not `startWaku` was
ever called, each makes exactly one call to its library function and returns the
status the library gives. -/
theorem protocol_operations_gated_on_context (lib : LibWaku) (w : WakuWorld)
    (pubsubTopic message contentTopic startTime endTime : QString) :
    (w.plugin.wakuCtx = 0 →
      relaySubscribe lib pubsubTopic w = (-1, w) ∧
      relayPublish lib pubsubTopic message contentTopic w = (-1, w) ∧
      filterSubscribe lib pubsubTopic contentTopic w = (-1, w) ∧
      storeQuery lib pubsubTopic contentTopic startTime endTime w = (-1, w)) ∧
    (w.plugin.wakuCtx ≠ 0 →
      ((relaySubscribe lib pubsubTopic w).1 =
          (lib.waku_relay_subscribe w.libCalls w.plugin.wakuCtx pubsubTopic
            .event_callback).1 ∧
        (relaySubscribe lib pubsubTopic w).2.libCalls =
          w.libCalls ++ [.waku_relay_subscribe w.plugin.wakuCtx pubsubTopic .event_callback]) ∧
      ((relayPublish lib pubsubTopic message contentTopic w).1 =
          (lib.waku_relay_publish w.libCalls w.plugin.wakuCtx pubsubTopic message
            contentTopic 0 .event_callback).1 ∧
        (relayPublish lib pubsubTopic message contentTopic w).2.libCalls =
          w.libCalls ++ [.waku_relay_publish w.plugin.wakuCtx pubsubTopic message
            contentTopic 0 .event_callback]) ∧
      ((filterSubscribe lib pubsubTopic contentTopic w).1 =
          (lib.waku_filter_subscribe w.libCalls w.plugin.wakuCtx pubsubTopic
            (contentTopicsJson contentTopic) .event_callback).1 ∧
        (filterSubscribe lib pubsubTopic contentTopic w).2.libCalls =
          w.libCalls ++ [.waku_filter_subscribe w.plugin.wakuCtx pubsubTopic
            (contentTopicsJson contentTopic) .event_callback]) ∧
      ((storeQuery lib pubsubTopic contentTopic startTime endTime w).1 =
          (lib.waku_store_query w.libCalls w.plugin.wakuCtx
            (storeQueryJson pubsubTopic contentTopic startTime endTime) .event_callback).1 ∧
        (storeQuery lib pubsubTopic contentTopic startTime endTime w).2.libCalls =
          w.libCalls ++ [.waku_store_query w.plugin.wakuCtx
            (storeQueryJson pubsubTopic contentTopic startTime endTime) .event_callback])) := by
  constructor
  · intro h
    simp [relaySubscribe, relayPublish, filterSubscribe, storeQuery, h]
  · intro h
    simp [relaySubscribe, relayPublish, filterSubscribe, storeQuery, h, fireAll_libCalls,
      logCall]

/-- The amended C1 at a freshly constructed plugin (null handle) and at the plugin
after a successful `initWaku` that was never started. -/
theorem protocol_operations_gated_on_context_witness :
    (({} : WakuWorld).plugin.wakuCtx = 0 ∧
      relaySubscribe acceptingLib "t" {} = (-1, {}) ∧
      relayPublish acceptingLib "t" "m" "c" {} = (-1, {}) ∧
      filterSubscribe acceptingLib "t" "c" {} = (-1, {}) ∧
      storeQuery acceptingLib "t" "c" "1" "2" {} = (-1, {})) ∧
    ((run acceptingLib [.initWaku "cfg"]).plugin.wakuCtx ≠ 0 ∧
      (relaySubscribe acceptingLib "t" (run acceptingLib [.initWaku "cfg"])).1 =
        (acceptingLib.waku_relay_subscribe (run acceptingLib [.initWaku "cfg"]).libCalls
          (run acceptingLib [.initWaku "cfg"]).plugin.wakuCtx "t" .event_callback).1) :=
  ⟨⟨rfl, (protocol_operations_gated_on_context acceptingLib {} "t" "m" "c" "1" "2").1 rfl⟩,
   ⟨by decide,
    ((protocol_operations_gated_on_context acceptingLib (run acceptingLib [.initWaku "cfg"])
      "t" "m" "c" "1" "2").2 (by decide)).1.1⟩⟩

/-- C2: with a null context handle every operation other than `initWaku` is rejected.
`startWaku`, `relaySubscribe`, `relayPublish`, `filterSubscribe` and `storeQuery`
return `-1`, and they and `setEventCallback` leave the whole world as it was: no call
into the library, no event, no change of the module state. -/
theorem null_context_rejects_every_operation (lib : LibWaku) (w : WakuWorld)
    (pubsubTopic message contentTopic startTime endTime : QString)
    (h : w.plugin.wakuCtx = 0) :
    startWaku lib w = (-1, w) ∧
    setEventCallback lib w = w ∧
    relaySubscribe lib pubsubTopic w = (-1, w) ∧
    relayPublish lib pubsubTopic message contentTopic w = (-1, w) ∧
    filterSubscribe lib pubsubTopic contentTopic w = (-1, w) ∧
    storeQuery lib pubsubTopic contentTopic startTime endTime w = (-1, w) := by
  simp [startWaku, setEventCallback, relaySubscribe, relayPublish, filterSubscribe,
    storeQuery, h]

/-- C2 at the plugin left by a failed `initWaku`. -/
theorem null_context_rejects_every_operation_witness :
    (run refusingLib [.initWaku "cfg"]).plugin.wakuCtx = 0 ∧
    startWaku refusingLib (run refusingLib [.initWaku "cfg"]) =
      (-1, run refusingLib [.initWaku "cfg"]) ∧
    setEventCallback refusingLib (run refusingLib [.initWaku "cfg"]) =
      run refusingLib [.initWaku "cfg"] ∧
    relaySubscribe refusingLib "t" (run refusingLib [.initWaku "cfg"]) =
      (-1, run refusingLib [.initWaku "cfg"]) ∧
    relayPublish refusingLib "t" "m" "c" (run refusingLib [.initWaku "cfg"]) =
      (-1, run refusingLib [.initWaku "cfg"]) ∧
    filterSubscribe refusingLib "t" "c" (run refusingLib [.initWaku "cfg"]) =
      (-1, run refusingLib [.initWaku "cfg"]) ∧
    storeQuery refusingLib "t" "c" "1" "2" (run refusingLib [.initWaku "cfg"]) =
      (-1, run refusingLib [.initWaku "cfg"]) :=
  ⟨by decide,
   null_context_rejects_every_operation refusingLib (run refusingLib [.initWaku "cfg"])
     "t" "m" "c" "1" "2" (by decide)⟩

/-- C3: `initWaku(config)` makes exactly one call into the library, `waku_new` with
the config and `init_callback`; it returns `0` exactly when `waku_new` gave a non-null
context; the stored handle is then that context; and when `waku_new` gave null it
returns `-1`. -/
theorem initWaku_calls_waku_new_once (lib : LibWaku) (configJson : QString)
    (w : WakuWorld) :
    (initWaku lib configJson w).2.libCalls =
      w.libCalls ++ [.waku_new configJson .init_callback] ∧
    ((initWaku lib configJson w).1 = 0 ↔
      (lib.waku_new w.libCalls configJson .init_callback).1 ≠ 0) ∧
    ((initWaku lib configJson w).1 = 0 →
      (initWaku lib configJson w).2.plugin.wakuCtx =
        (lib.waku_new w.libCalls configJson .init_callback).1) ∧
    ((lib.waku_new w.libCalls configJson .init_callback).1 = 0 →
      (initWaku lib configJson w).1 = -1) := by
  by_cases h : (lib.waku_new w.libCalls configJson .init_callback).1 = 0
  · simp [initWaku, h, fireAll_libCalls, logCall]
  · simp [initWaku, h, fireAll_libCalls, logCall]

/-- C3 on a freshly constructed plugin, with a library that gives a context and with
one that refuses. -/
theorem initWaku_calls_waku_new_once_witness :
    ((initWaku acceptingLib "cfg" {}).1 = 0 ∧
      (initWaku acceptingLib "cfg" {}).2.plugin.wakuCtx =
        (acceptingLib.waku_new [] "cfg" .init_callback).1) ∧
    ((refusingLib.waku_new [] "cfg" .init_callback).1 = 0 ∧
      (initWaku refusingLib "cfg" {}).1 = -1) :=
  ⟨⟨by decide, (initWaku_calls_waku_new_once acceptingLib "cfg" {}).2.2.1 (by decide)⟩,
   ⟨by decide, (initWaku_calls_waku_new_once refusingLib "cfg" {}).2.2.2 (by decide)⟩⟩

/-- C6, as stated, fails: on a plugin whose `startWaku` has succeeded, a further
`startWaku` calls `waku_start` again, so that the library has been started twice. -/
theorem startWaku_again_calls_waku_start :
    (startWaku acceptingLib (run acceptingLib [.initWaku "cfg"])).1 = RET_OK ∧
    (startWaku acceptingLib (run acceptingLib [.initWaku "cfg", .startWaku])).2.libCalls =
      [.waku_new "cfg" .init_callback, .waku_start 1 .start_callback,
       .waku_start 1 .start_callback] ∧
    (startWaku acceptingLib (run acceptingLib [.initWaku "cfg", .startWaku])).2.libCalls ≠
      (run acceptingLib [.initWaku "cfg", .startWaku]).libCalls := by
  decide

/-- C6, amended: the plugin keeps no record of having been started. With a non-null
context every `startWaku`, a further one after a successful start included, makes
exactly one call to `waku_start` with the stored context and `start_callback`, returns
what `waku_start` returns, and leaves the data members of the plugin unchanged. -/
theorem startWaku_forwards_every_call (lib : LibWaku) (w : WakuWorld)
    (h : w.plugin.wakuCtx ≠ 0) :
    (startWaku lib w).1 = (lib.waku_start w.libCalls w.plugin.wakuCtx .start_callback).1 ∧
    (startWaku lib w).2.libCalls =
      w.libCalls ++ [.waku_start w.plugin.wakuCtx .start_callback] ∧
    (startWaku lib w).2.plugin = w.plugin := by
  simp [startWaku, h, fireAll_libCalls, fireAll_plugin, logCall]

/-- The amended C6 at a plugin that has been initialised and started. -/
theorem startWaku_forwards_every_call_witness :
    (run acceptingLib [.initWaku "cfg", .startWaku]).plugin.wakuCtx ≠ 0 ∧
    (startWaku acceptingLib (run acceptingLib [.initWaku "cfg", .startWaku])).1 =
      (acceptingLib.waku_start (run acceptingLib [.initWaku "cfg", .startWaku]).libCalls
        (run acceptingLib [.initWaku "cfg", .startWaku]).plugin.wakuCtx .start_callback).1 ∧
    (startWaku acceptingLib (run acceptingLib [.initWaku "cfg", .startWaku])).2.libCalls =
      (run acceptingLib [.initWaku "cfg", .startWaku]).libCalls ++
        [.waku_start (run acceptingLib [.initWaku "cfg", .startWaku]).plugin.wakuCtx
          .start_callback] ∧
    (startWaku acceptingLib (run acceptingLib [.initWaku "cfg", .startWaku])).2.plugin =
      (run acceptingLib [.initWaku "cfg", .startWaku]).plugin :=
  ⟨by decide,
   startWaku_forwards_every_call acceptingLib (run acceptingLib [.initWaku "cfg", .startWaku])
     (by decide)⟩

/-- C7: one invocation of `init_callback`, `start_callback` or `event_callback` emits
exactly one `eventResponse` signal, named `waku_init`, `waku_started` or `waku_event`,
whose arguments are the status code and the message it was invoked with. -/
theorem callback_emits_one_signal (ret_code : Int) (msg : String) (w : WakuWorld) :
    (init_callback ret_code msg w).signals =
      w.signals ++ [⟨"waku_init", [.int ret_code, .str msg]⟩] ∧
    (start_callback ret_code msg w).signals =
      w.signals ++ [⟨"waku_started", [.int ret_code, .str msg]⟩] ∧
    (event_callback ret_code msg w).signals =
      w.signals ++ [⟨"waku_event", [.int ret_code, .str msg]⟩] := by
  refine ⟨rfl, rfl, ?_⟩
  simp only [event_callback]
  split <;> rfl

end Waku

/-! ## `ExternalLibPlugin`: handle and initialisation flag -/

/-- The text `QString("Processed: %1").arg(input)` is `Processed: ` followed by the
input. -/
theorem processed_arg (input : QString) :
    QString.arg "Processed: %1" [input] = "Processed: " ++ input := by
  apply String.ext
  show _ = "Processed: ".data ++ input.data
  have h : scanFormat "Processed: %1".data.length "Processed: %1".data =
      [.lit 'P', .lit 'r', .lit 'o', .lit 'c', .lit 'e', .lit 's', .lit 's', .lit 'e',
       .lit 'd', .lit ':', .lit ' ', .marker 1 ['%', '1']] := by decide
  simp only [QString.arg, h]
  simp [renderFormat, markerNumbers, insertMarker, indexOfMarker]

/-- The text `Processed: ` followed by anything is not empty. -/
theorem processed_ne_empty (input : QString) : "Processed: " ++ input ≠ "" := by
  intro h
  have h2 := congrArg String.length h
  rw [String.length_append] at h2
  have h3 : "Processed: ".length = 11 := by decide
  have h4 : "".length = 0 := by decide
  omega

section ExternalLib
open ExternalLibPlugin

theorem handleMatchesFlag_step (w : ExternalLibWorld) (op : ExternalLibOp)
    (h : handleMatchesFlag w) : handleMatchesFlag (step w op) := by
  unfold handleMatchesFlag at *
  cases op with
  | initLogos api => simpa [step, initLogos] using h
  | initLibrary config =>
    by_cases hi : w.plugin.m_initialized = true
    · simpa [step, initLibrary, hi] using h
    · simp [step, initLibrary, hi]
  | processData input =>
    by_cases hi : w.plugin.m_initialized = true
    · simpa [step, processData, hi] using h
    · simpa [step, processData, hi] using h
  | cleanup =>
    by_cases hi : w.plugin.m_initialized = true
    · simp [step, cleanup, hi]
    · simpa [step, cleanup, hi] using h

theorem handleMatchesFlag_foldl (ops : List ExternalLibOp) (w : ExternalLibWorld)
    (h : handleMatchesFlag w) : handleMatchesFlag (ops.foldl step w) := by
  induction ops generalizing w with
  | nil => exact h
  | cons op ops ih => exact ih (step w op) (handleMatchesFlag_step w op h)

theorem handleMatchesFlag_run (ops : List ExternalLibOp) : handleMatchesFlag (run ops) :=
  handleMatchesFlag_foldl ops {} (by simp [handleMatchesFlag])

/-- C4: `cleanup()` is idempotent. From every state, two calls in a row leave the same
plugin state and the same sequence of emitted signals as one call; that sequence is the
earlier one followed by `library_cleanup` once when the plugin was initialised and by
nothing otherwise; afterwards the plugin is not initialised; the handle of an initialised
plugin is set to null; and in every state reachable from the constructed plugin the
handle is null after `cleanup()`. -/
theorem cleanup_idempotent (w : ExternalLibWorld) (ops : List ExternalLibOp) :
    cleanup (cleanup w) = cleanup w ∧
    (cleanup (cleanup w)).signals =
      w.signals ++ (if w.plugin.m_initialized then [⟨"library_cleanup", []⟩] else []) ∧
    (cleanup w).plugin.m_initialized = false ∧
    (cleanup w).plugin.m_libHandle =
      (if w.plugin.m_initialized then 0 else w.plugin.m_libHandle) ∧
    (cleanup (cleanup (run ops))).plugin.m_libHandle = 0 := by
  have h1 : ∀ v : ExternalLibWorld, (cleanup v).plugin.m_initialized = false := by
    intro v
    by_cases hv : v.plugin.m_initialized = true <;> simp [cleanup, hv]
  have h2 : ∀ v : ExternalLibWorld, cleanup (cleanup v) = cleanup v := by
    intro v
    by_cases hv : v.plugin.m_initialized = true <;> simp [cleanup, hv]
  refine ⟨h2 w, ?_, h1 w, ?_, ?_⟩
  · rw [h2]
    by_cases hv : w.plugin.m_initialized = true <;> simp [cleanup, hv]
  · by_cases hv : w.plugin.m_initialized = true <;> simp [cleanup, hv]
  · rw [h2]
    have hr := handleMatchesFlag_run ops
    unfold handleMatchesFlag at hr
    by_cases hv : (run ops).plugin.m_initialized = true
    · simp [cleanup, hv]
    · have : (run ops).plugin.m_libHandle = 0 := by
        by_contra hne
        exact hv (hr.mp hne)
      simp [cleanup, hv, this]

/-- C5: in every state reached from the constructed plugin by calls of `initLogos`,
`initLibrary`, `processData` and `cleanup`, the handle `m_libHandle` is non-null exactly
when `m_initialized` is true. -/
theorem handle_nonnull_iff_initialized (ops : List ExternalLibOp) :
    (run ops).plugin.m_libHandle ≠ 0 ↔ (run ops).plugin.m_initialized = true :=
  handleMatchesFlag_run ops

/-- C8, as stated, fails: `initLibrary` called after `cleanup()` is not rejected. It
returns `true`, emits `library_initialized` and initialises the plugin again, and a
`processData` after it succeeds. -/
theorem initLibrary_after_cleanup_succeeds :
    (initLibrary "again" (run [.initLibrary "cfg", .cleanup])).1 = true ∧
    (initLibrary "again" (run [.initLibrary "cfg", .cleanup])).2.plugin.m_initialized = true ∧
    (initLibrary "again" (run [.initLibrary "cfg", .cleanup])).2.signals =
      (run [.initLibrary "cfg", .cleanup]).signals ++
        [⟨"library_initialized", [.str "again"]⟩] ∧
    (processData "x" (run [.initLibrary "cfg", .cleanup, .initLibrary "again"])).1 ≠ "" := by
  decide

/-- C8, amended: right after `cleanup()` the plugin is not initialised; `processData`
then returns the empty string for every input, emits nothing and leaves the plugin as
it is; `initLibrary` is not rejected: for every config it returns `true`, sets the
handle and the flag again and emits one `library_initialized` signal. -/
theorem after_cleanup_only_processData_is_rejected (w : ExternalLibWorld)
    (config input : QString) :
    (cleanup w).plugin.m_initialized = false ∧
    processData input (cleanup w) = ("", cleanup w) ∧
    initLibrary config (cleanup w) =
      (true,
        { plugin := { (cleanup w).plugin with m_libHandle := 1, m_initialized := true }
          signals := (cleanup w).signals ++ [⟨"library_initialized", [.str config]⟩] }) := by
  have h1 : (cleanup w).plugin.m_initialized = false := by
    by_cases hv : w.plugin.m_initialized = true <;> simp [cleanup, hv]
  refine ⟨h1, ?_, ?_⟩
  · simp [processData, h1]
  · simp [initLibrary, h1]

/-- C9: on an initialised plugin `processData(input)` returns `Processed: ` followed by
the input and emits exactly one `data_processed` signal with the input and the output;
on a plugin that is not initialised it returns the empty string and changes nothing;
so the result is empty exactly when the plugin is not initialised. -/
theorem processData_result (input : QString) (w : ExternalLibWorld) :
    (w.plugin.m_initialized = true →
      processData input w =
        ("Processed: " ++ input,
          { w with signals := w.signals ++
              [⟨"data_processed", [.str input, .str ("Processed: " ++ input)]⟩] })) ∧
    (w.plugin.m_initialized = false → processData input w = ("", w)) ∧
    ((processData input w).1 = "" ↔ w.plugin.m_initialized = false) := by
  refine ⟨?_, ?_, ?_⟩
  · intro h
    simp [processData, h, processed_arg]
  · intro h
    simp [processData, h]
  · by_cases h : w.plugin.m_initialized = true
    · simp [processData, h, processed_arg, processed_ne_empty]
    · simp [processData, h]

/-- C9 on an initialised plugin and on the constructed one. -/
theorem processData_result_witness :
    ((run [.initLibrary "cfg"]).plugin.m_initialized = true ∧
      processData "abc" (run [.initLibrary "cfg"]) =
        ("Processed: " ++ "abc",
          { run [.initLibrary "cfg"] with signals := (run [.initLibrary "cfg"]).signals ++
              [⟨"data_processed", [.str "abc", .str ("Processed: " ++ "abc")]⟩] })) ∧
    (({} : ExternalLibWorld).plugin.m_initialized = false ∧ processData "abc" {} = ("", {})) :=
  ⟨⟨by decide, (processData_result "abc" (run [.initLibrary "cfg"])).1 (by decide)⟩,
   ⟨rfl, (processData_result "abc" {}).2.1 rfl⟩⟩

end ExternalLib

/-! ## `filterSubscribe`: the content-topics argument -/

section ContentTopics
open WakuModulePlugin

theorem jsonStringBody_plain (cs rest : List Char) (fuel : Nat)
    (h : ∀ c ∈ cs, plainJsonChar c) (hf : cs.length < fuel) :
    jsonStringBody fuel (cs ++ '"' :: rest) = some (cs, rest) := by
  induction cs generalizing fuel with
  | nil =>
    cases fuel with
    | zero => omega
    | succ n => simp [jsonStringBody]
  | cons c cs ih =>
    cases fuel with
    | zero => omega
    | succ n =>
      have hc := h c (List.mem_cons_self c cs)
      have hrest : ∀ d ∈ cs, plainJsonChar d := fun d hd => h d (List.mem_cons_of_mem c hd)
      have hn : cs.length < n := by simpa using hf
      have h20 : ¬ c.toNat < 0x20 := by have := hc.2.2; omega
      simp [jsonStringBody, hc.1, hc.2.1, h20, ih n hrest hn]

/-- Where the content topic holds no double quote, no backslash and no control
character, the text built by `filterSubscribe` is a JSON array of one string, the
content topic. -/
theorem contentTopicsJson_of_plain (contentTopic : QString)
    (h : ∀ c ∈ contentTopic.data, plainJsonChar c) :
    jsonSingleStringArray (contentTopicsJson contentTopic) = some contentTopic := by
  have hd : (contentTopicsJson contentTopic).data =
      '[' :: '"' :: (contentTopic.data ++ '"' :: [']']) := by
    simp [contentTopicsJson, String.data_append]
  have hb := jsonStringBody_plain contentTopic.data [']']
    (contentTopic.data ++ '"' :: [']']).length h (by simp)
  simp only [jsonSingleStringArray, hd]
  have hw1 : skipWs ('[' :: '"' :: (contentTopic.data ++ '"' :: [']'])) =
      '[' :: '"' :: (contentTopic.data ++ '"' :: [']']) := by
    simp [skipWs, isJsonWs]
  have hw2 : skipWs ('"' :: (contentTopic.data ++ '"' :: [']'])) =
      '"' :: (contentTopic.data ++ '"' :: [']']) := by
    simp [skipWs, isJsonWs]
  simp only [hw1, hw2, hb]
  simp [skipWs, isJsonWs]

/-- C10 fails on the code at a content topic that holds a double quote or a backslash:
the text handed to `waku_filter_subscribe` is the topic between `["` and `"]` with
nothing escaped. For the topic `a"b` it is `["a"b"]`, which is no JSON text; for a
topic ending in a backslash the string is never closed; for `a","b` it is an array of
two strings; and for a topic holding the two characters backslash and `n` the string
denotes a line feed instead. -/
theorem filterSubscribe_does_not_escape :
    (filterSubscribe acceptingLib "p" "a\"b" (run acceptingLib [.initWaku "cfg"])).2.libCalls =
      [.waku_new "cfg" .init_callback,
       .waku_filter_subscribe 1 "p" "[\"a\"b\"]" .event_callback] ∧
    jsonSingleStringArray (contentTopicsJson "a\"b") = none ∧
    jsonSingleStringArray (contentTopicsJson "a\\") = none ∧
    jsonSingleStringArray (contentTopicsJson "a\",\"b") = none ∧
    jsonSingleStringArray (contentTopicsJson "a\\nb") = some "a\nb" ∧
    jsonSingleStringArray (contentTopicsJson "a\\nb") ≠ some "a\\nb" := by
  decide

end ContentTopics

/-! ## `MinimalPlugin`: the status text -/

section Minimal
open MinimalPlugin

theorem minimal_step_initialized (w : MinimalWorld) (op : MinimalOp) :
    (step w op).plugin.m_initialized = w.plugin.m_initialized := by
  cases op with
  | initLogos api newLogos =>
    simp only [step, initLogos]
    repeat' split
    all_goals rfl
  | greet name => rfl
  | getStatus =>
    simp only [step, getStatus]
    split <;> rfl

theorem minimal_foldl_initialized (ops : List MinimalOp) (w : MinimalWorld) :
    (ops.foldl step w).plugin.m_initialized = w.plugin.m_initialized := by
  induction ops generalizing w with
  | nil => rfl
  | cons op ops ih =>
    show ((ops.foldl step (step w op)).plugin.m_initialized = w.plugin.m_initialized)
    rw [ih, minimal_step_initialized]

/-- C11: after every sequence of `initLogos`, `greet` and `getStatus` calls on a
freshly constructed `MinimalPlugin`, `m_initialized` is still false and `getStatus()`
returns `Minimal module is loaded but not yet initialized.`, so the other status text
is never returned, after `initLogos` included. -/
theorem getStatus_never_initialized (ops : List MinimalOp) :
    (run ops).plugin.m_initialized = false ∧
    (getStatus (run ops)).1 = "Minimal module is loaded but not yet initialized." ∧
    (getStatus (run ops)).1 ≠ "Minimal module is running and initialized." := by
  have h : (run ops).plugin.m_initialized = false := minimal_foldl_initialized ops {}
  have hs : (getStatus (run ops)).1 = "Minimal module is loaded but not yet initialized." := by
    simp [getStatus, h]
  refine ⟨h, hs, ?_⟩
  rw [hs]
  decide

end Minimal

end Logos
